import Mathlib

/-!
Verification of the chat-port-docxtract message-driven document pipeline.

This file gives a shallow embedding of the orchestration core of the
repository: the Elasticsearch connector (src/elasticsearch_connector/connector.py),
the LangChain text splitter wrapper (src/langchain/text_splitter.py), the
document processor and message handler (src/main.py), and the Artemis STOMP
connector with its listener (src/artemis/connector.py).  External
collaborators (the stomp transport, the Elasticsearch client, the SFTP
server, the langchain chunker, the sentence-transformer embedder) are
modelled as oracles supplied as explicit arguments; the Python dictionaries
that carry state are modelled as insertion-ordered association lists.
-/

/-! ## Python dictionaries as insertion-ordered association lists -/

/-- Insertion-ordered dictionary update: replaces the value in place when the
key is present, appends at the end otherwise (CPython dict semantics). -/
def dictSet {α : Type} : List (String × α) → String → α → List (String × α)
  | [], k, v => [(k, v)]
  | (k0, v0) :: rest, k, v =>
      if k0 = k then (k, v) :: rest else (k0, v0) :: dictSet rest k v

/-- Deletion of a key from a dictionary (removes every binding of the key;
well-formed dictionaries bind a key at most once). -/
def dictDel {α : Type} (d : List (String × α)) (k : String) : List (String × α) :=
  d.filter (fun p => p.1 ≠ k)

/-- Membership test, Python `k in d`. -/
def dictHas {α : Type} (d : List (String × α)) (k : String) : Bool :=
  d.any (fun p => p.1 = k)

/-- Lookup, Python `d[k]` / `d.get(k)`. -/
def dictGet {α : Type} : List (String × α) → String → Option α
  | [], _ => none
  | (k0, v) :: rest, k => if k0 = k then some v else dictGet rest k

/-- Key list in insertion order, Python `list(d.keys())`. -/
def dictKeys {α : Type} (d : List (String × α)) : List String :=
  d.map Prod.fst

/-! ## Python string helpers used by the text splitter

These re-implement the Python string primitives over the character list of
the string, so that every one of them evaluates by kernel reduction. -/

/-- Python `str.strip()`: leading and trailing whitespace removed (the
ASCII whitespace of `Char.isWhitespace`; the documents handled here do
not use the wider Unicode whitespace set Python also strips). -/
def pyStrip (s : String) : String :=
  String.mk (((s.data.dropWhile Char.isWhitespace).reverse.dropWhile
    Char.isWhitespace).reverse)

/-- Prefix test on character lists. -/
def startsWithChars : List Char → List Char → Bool
  | [], _ => true
  | _ :: _, [] => false
  | a :: as, b :: bs => a = b && startsWithChars as bs

/-- Scan for the first position at which `pat` is a prefix of the remaining
characters. -/
def pyFindAux (pat : List Char) : List Char → Nat → Option Nat
  | [], i => if pat.isEmpty then some i else none
  | c :: rest, i =>
      if startsWithChars pat (c :: rest) then some i
      else pyFindAux pat rest (i + 1)

/-- Python `str.find(pat)` restricted to its success/failure information:
first character index at which `pat` occurs in `s`, or `none` (Python -1). -/
def pyFind (s pat : String) : Option Nat :=
  pyFindAux pat.data s.data 0

/-- Split of a character list at every separator character; empty pieces
kept, in the manner of Python `str.split(sep)`. -/
def splitChars (p : Char → Bool) : List Char → List (List Char)
  | [] => [[]]
  | c :: cs =>
      let r := splitChars p cs
      if p c then [] :: r
      else
        match r with
        | [] => [[c]]
        | w :: ws => (c :: w) :: ws

/-- Python `str.split()` with no argument: whitespace-separated words,
empty pieces discarded. -/
def pyWords (s : String) : List String :=
  ((splitChars Char.isWhitespace s.data).map String.mk).filter (fun w => w ≠ "")

/-- Python `str.split(chr(10))`: newline-separated pieces, empties kept. -/
def pyLines (s : String) : List String :=
  (splitChars (fun c => c = Char.ofNat 10) s.data).map String.mk

/-- Zero-padded rendering of an index, Python format `fragment_{index:03d}`. -/
def pad3 (n : Nat) : String :=
  let s := toString n
  if s.length ≥ 3 then s else String.mk (List.replicate (3 - s.length) (Char.ofNat 48)) ++ s

/-- Python truthiness of an optional string: `None` and the empty string are
falsy. -/
def strFalsy : Option String → Bool
  | none => true
  | some s => s = ""

/-! ## Python exceptions -/

/-- Exception values that the embedded code can raise.  The payload is the
message built at the raise site (abbreviated where the Python message
interpolates runtime data). -/
inductive PyExn : Type
  | valueError (msg : String)
  | runtimeError (msg : String)
  | attributeError (msg : String)
  | typeError (msg : String)
  | exception (msg : String)
deriving DecidableEq, Repr

/-! ## Elasticsearch connector (src/elasticsearch_connector/connector.py)

The Elasticsearch index is modelled as a dictionary from document id to the
stored source document; `es.delete(ignore 404)` removes the id, `es.index`
upserts and reports created/updated.  The network is an oracle: each call
of the client may be told to raise. -/

/-- Stored documents are the formatted fragments of main.py; the one field
`save_document` itself touches is `metadata.processed_date`. -/
structure EsDoc where
  doc_id : Option String
  chunk_index : Nat
  page : Nat
  sectionField : String
  tokens : Nat
  areas : List String
  titulo : Option String
  autor : Option String
  fecha_creacion : Option String
  fecha_modificacion : Option String
  correo : Option String
  privacidad : Option String
  keywords : List String
  ruta : Option String
  content_raw : String
  title : Option String
  source_url : Option String
  content_vector : Option Nat
  processed_date : Option Nat
deriving DecidableEq, Repr

/-- Elasticsearch index content: document id mapped to stored source. -/
abbrev EsStore := List (String × EsDoc)

/-- Model of `es.delete(index, id, ignore=[404])`. -/
def esDelete (store : EsStore) (id : String) : EsStore :=
  dictDel store id

/-- Model of `es.index(index, id, body)`: upserts and reports
"created" when the id was absent, "updated" when present. -/
def esIndex (store : EsStore) (id : String) (d : EsDoc) : EsStore × String :=
  (dictSet store id d, if dictHas store id then "updated" else "created")

/-- Line 144-145 of the connector: add `processed_date` to the metadata when
absent, with the wall clock `now` standing in for `datetime.now()`. -/
def addProcessedDate (d : EsDoc) (now : Nat) : EsDoc :=
  if d.processed_date = none then { d with processed_date := some now } else d

/-- Network oracle for one `send_to_elasticsearch` round trip: whether
`connect` reaches the cluster, and whether the delete or index client call
raises. -/
structure EsCallOracle where
  connectOk : Bool
  deleteExn : Bool
  indexExn : Bool
deriving DecidableEq, Repr

/-- Model of `ElasticsearchConnector.save_document` (lines 127-164).  Not
connected or a missing `doc_id` return `false` without touching the store;
otherwise the existing record under `doc_id` is deleted and the document is
re-indexed under `doc_id`; any client exception is caught and yields
`false`.  Returns the store after the call and the boolean result. -/
def save_document (store : EsStore) (connected : Bool) (document : EsDoc)
    (doc_id : Option String) (now : Nat) (o : EsCallOracle) : EsStore × Bool :=
  if connected = false then (store, false)
  else
    let document := addProcessedDate document now
    match doc_id with
    | none => (store, false)
    | some id =>
        if o.deleteExn then (store, false)
        else
          let store1 := esDelete store id
          if o.indexExn then (store1, false)
          else
            let (store2, result) := esIndex store1 id document
            (store2, result = "created" ∨ result = "updated")

/-- Model of `DocumentProcessor.send_to_elasticsearch` (main.py lines
165-174): connect, save under the processor's `document_uuid`, disconnect;
every exception is caught and turned into `false`.  The `connected` flag
passed to `save_document` is the outcome of the `connect` call, whose
return value the Python code ignores. -/
def send_to_elasticsearch (store : EsStore) (document_uuid : Option String)
    (fragment : EsDoc) (now : Nat) (o : EsCallOracle) : EsStore × Bool :=
  save_document store o.connectOk fragment document_uuid now o

/-- Model of the indexing loop of the handler (main.py lines 228-230): one
`send_to_elasticsearch` per fragment, in order, the boolean results
collected here although the Python code discards them. -/
def indexFragments (store : EsStore) (document_uuid : Option String)
    (fragments : List EsDoc) (now : Nat) (oracles : List EsCallOracle) :
    EsStore × List Bool :=
  match fragments, oracles with
  | [], _ => (store, [])
  | f :: fs, os =>
      let o := os.headD ⟨true, false, false⟩
      let (store1, r) := send_to_elasticsearch store document_uuid f now o
      let (store2, rs) := indexFragments store1 document_uuid fs now os.tail
      (store2, r :: rs)

/-! ## Text splitter (src/langchain/text_splitter.py)

The langchain `RecursiveCharacterTextSplitter.split_text` call is an
external collaborator; its outcome (the list of raw chunks, or an
exception) is an oracle.  In the running configuration
`self.metadata_config = self.config.get('metadata', {})` is the empty
dictionary — `load_config` in config_chain.py stores the include flags at
top level, not under a `metadata` key — so every
`metadata_config.get(..., True)` defaults to `True` and all three metadata
blocks of `_create_fragment` are always added.  The float field
`position_percentage` is not modelled. -/

/-- Fragment dictionary produced by `TextSplitter._create_fragment`
(lines 109-158).  `start_position`/`end_position` are `none` when the
stripped chunk does not occur in the original text (Python find = -1, in
which case the keys are absent). -/
structure Fragment where
  text : String
  fragment_id : String
  fragment_index : Nat
  total_fragments : Nat
  splitter_type : String
  start_position : Option Nat
  end_position : Option Nat
  character_count : Nat
  word_count : Nat
  line_count : Nat
  processed_at : Nat
deriving DecidableEq, Repr

/-- Model of `TextSplitter._create_fragment` for one chunk. -/
def create_fragment (chunk : String) (index total_chunks : Nat)
    (original_text : String) (now : Nat) : Fragment :=
  let t := pyStrip chunk
  let pos := pyFind original_text t
  { text := t
    fragment_id := "fragment_" ++ pad3 index
    fragment_index := index
    total_fragments := total_chunks
    splitter_type := "recursive_character"
    start_position := pos
    end_position := pos.map (fun p => p + t.data.length)
    character_count := t.data.length
    word_count := (pyWords t).length
    line_count := (pyLines t).length
    processed_at := now }

/-- Model of `TextSplitter.split_text` (lines 71-106): empty or
whitespace-only text raises; a langchain failure is re-raised as a
RuntimeError; otherwise each chunk is turned into a fragment with its
enumeration index. -/
def TextSplitter_split_text (text : String) (chunks : Except PyExn (List String))
    (now : Nat) : Except PyExn (List Fragment) :=
  if text = "" ∨ pyStrip text = "" then
    .error (.runtimeError "No se proporcionó texto para dividir.")
  else
    match chunks with
    | .error _ =>
        .error (.runtimeError "Algún error ocurrió al dividir el texto con LangChain")
    | .ok cs =>
        .ok (cs.enum.map (fun p => create_fragment p.2 p.1 cs.length text now))

/-! ## Document processor (src/main.py, class DocumentProcessor) -/

/-- Per-message processor fields set by the handler from the first element
of `datos` (main.py lines 197-206), plus the page count read from the
extraction result by `_formato_fragmento`.  `keywords` stays empty: the
handler never calls `extract_keywords`. -/
structure ProcState where
  document_uuid : Option String
  areas : List String
  nombre : Option String
  privacidad : Option String
  creacion : Option String
  actualizacion : Option String
  correo : Option String
  autor : Option String
  ruta : Option String
  keywords : List String
  texto_paginas : Nat
deriving DecidableEq, Repr

/-- Model of `DocumentProcessor._formato_fragmento` (lines 124-151).  The
`fragment_index` key is always present in the running configuration, so
`fragment.get('fragment_index', 0)` is the fragment's enumeration index;
`content_vector` starts empty (`none`). -/
def formato_fragmento (p : ProcState) (fragment : Fragment) : EsDoc :=
  { doc_id := p.document_uuid
    chunk_index := fragment.fragment_index
    page := p.texto_paginas
    sectionField := ""
    tokens := 0
    areas := p.areas
    titulo := p.nombre
    autor := p.autor
    fecha_creacion := p.creacion
    fecha_modificacion := p.actualizacion
    correo := p.correo
    privacidad := p.privacidad
    keywords := p.keywords
    ruta := p.ruta
    content_raw := fragment.text
    title := p.nombre
    source_url := p.document_uuid
    content_vector := none
    processed_date := none }

/-- Result of the document extraction, `texto.get('contenido', {}).get('texto', '')`
and `texto.get('metadatos', {}).get('paginas', 0)` collapsed to the two
fields the orchestrator reads. -/
structure TextoDoc where
  contenido_texto : String
  metadatos_paginas : Nat
deriving DecidableEq, Repr

/-- Model of `DocumentProcessor.split_text` (lines 110-122): raises when the
extracted text is empty, then delegates to the splitter and formats every
returned fragment. -/
def processor_split_text (p : ProcState) (contenido_texto : String)
    (chunks : Except PyExn (List String)) (now : Nat) : Except PyExn (List EsDoc) :=
  if contenido_texto = "" then .error (.valueError "No hay texto para dividir")
  else
    match TextSplitter_split_text contenido_texto chunks now with
    | .error e => .error e
    | .ok frags => .ok (frags.map (formato_fragmento p))

/-- Model of `DocumentProcessor.vectorize_fragments` (lines 153-163): embeds
each fragment's `content_raw` in order, storing the vector (an opaque token
from the embedder oracle); the first embedder exception propagates. -/
def vectorize_fragments (vec : String → Except PyExn Nat) :
    List EsDoc → Except PyExn (List EsDoc)
  | [] => .ok []
  | f :: fs =>
      match vec f.content_raw with
      | .error e => .error e
      | .ok v =>
          match vectorize_fragments vec fs with
          | .error e => .error e
          | .ok fs2 => .ok ({ f with content_vector := some v } :: fs2)

/-! ## Message handler (src/main.py, `handler` inside `main`, lines 187-236) -/

/-- First element of the decoded `datos` array.  `none` in the list stands
for an empty dictionary, which is falsy in the `if not data` check. -/
structure DataEntry where
  archivo : Option String
  areas : List String
  nombre : Option String
  privacidad : Option String
  creacion : Option String
  actualizacion : Option String
  correo : Option String
  autor : Option String
  ruta : Option String
deriving DecidableEq, Repr

/-- Decoded message body as produced by `on_message`: a JSON object with an
optional `datos` list, a JSON value that is not an object (on which
`.get` raises AttributeError), or the `raw_body` fallback for non-JSON
bodies. -/
inductive MsgData : Type
  | dict (datos : Option (List (Option DataEntry)))
  | nonDict
  | raw (body : String)
deriving DecidableEq, Repr

/-- Oracle for one pipeline run: the SFTP download outcome, the extraction
outcome (`none` for a falsy result), the langchain chunking outcome, the
embedder, the per-fragment Elasticsearch call oracles, and the wall
clock. -/
structure StageOracle where
  downloadOk : Bool
  extractResult : Except PyExn (Option TextoDoc)
  chunks : Except PyExn (List String)
  vectorize : String → Except PyExn Nat
  esCalls : List EsCallOracle
  now : Nat

/-- Model of the body of `handler` up to (not including) the enclosing
`except` (main.py lines 189-233).  Returns the Elasticsearch store after
the run and the exception that reaches the enclosing `except`.  Every run
that survives the indexing loop ends in the `AttributeError` raised by
`processor.send_to_elasticsearch_keywords()` on line 233, a method
`DocumentProcessor` does not define. -/
def handlerBody (st : StageOracle) (store : EsStore) (d : MsgData) :
    EsStore × Option PyExn :=
  match d with
  | .nonDict => (store, some (.attributeError "get no existe en el valor JSON"))
  | .raw _ => (store, some (.valueError "El mensaje no contiene los datos requeridos"))
  | .dict datos =>
      let datos_array := datos.getD []
      match datos_array.headD none with
      | none => (store, some (.valueError "El mensaje no contiene los datos requeridos"))
      | some entry =>
          let document_uuid := entry.archivo
          if strFalsy document_uuid then
            (store, some (.valueError "El mensaje no contiene document_uuid del documento"))
          else if st.downloadOk = false then
            (store, some (.exception "No se pudo descargar el archivo desde SFTP"))
          else
            match st.extractResult with
            | .error e => (store, some e)
            | .ok none => (store, some (.exception "No se pudo extraer texto del documento"))
            | .ok (some texto) =>
                let p : ProcState :=
                  { document_uuid := document_uuid
                    areas := entry.areas
                    nombre := entry.nombre
                    privacidad := entry.privacidad
                    creacion := entry.creacion
                    actualizacion := entry.actualizacion
                    correo := entry.correo
                    autor := entry.autor
                    ruta := entry.ruta
                    keywords := []
                    texto_paginas := texto.metadatos_paginas }
                match processor_split_text p texto.contenido_texto st.chunks st.now with
                | .error e => (store, some e)
                | .ok fragments =>
                    if fragments.isEmpty then
                      (store, some (.exception "No se pudieron crear fragmentos de texto"))
                    else
                      match vectorize_fragments st.vectorize fragments with
                      | .error e => (store, some e)
                      | .ok fragments2 =>
                          if fragments2.isEmpty then
                            (store, some (.exception "No se pudieron vectorizar los fragmentos de texto"))
                          else
                            let (store2, _results) :=
                              indexFragments store document_uuid fragments2 st.now st.esCalls
                            (store2, some (.attributeError
                              "DocumentProcessor no tiene el atributo send_to_elasticsearch_keywords"))

/-- Model of `handler` as seen by the dispatcher: the enclosing
`except Exception` (lines 235-236) prints the error and returns, so the
second component — the exception escaping the handler — is always `none`
while the first Option records what was caught. -/
def mainHandler (st : StageOracle) (d : MsgData) (store : EsStore) :
    EsStore × Option PyExn × Option PyExn :=
  let (store2, caught) := handlerBody st store d
  (store2, caught, none)

/-! ## Message dispatch (src/artemis/connector.py, `ArtemisMessageListener.on_message`) -/

/-- Acknowledgment primitives sent on the STOMP connection. -/
inductive AckOp : Type
  | ack (message_id : Option String) (subscription_id : String)
  | nack (message_id : Option String) (subscription_id : String)
deriving DecidableEq, Repr

/-- Inbound STOMP frame after JSON decoding: the header fields `on_message`
reads (each may be absent) and the decoded body. -/
structure Frame where
  subscription : Option String
  message_id : Option String
  destination : Option String
  data : MsgData
deriving Repr

/-- Model of `ArtemisMessageListener.on_message` (lines 267-319),
parameterised by the registered handler ids and the semantics of the
registered handler.  A frame whose subscription id has no registered
handler is logged and neither acked nor nacked; otherwise the handler runs
and a normal return acks while an escaping exception nacks. -/
def on_message (handlers : List String)
    (run : MsgData → EsStore → EsStore × Option PyExn × Option PyExn)
    (store : EsStore) (f : Frame) : EsStore × List AckOp :=
  match f.subscription with
  | none => (store, [])
  | some sid =>
      if handlers.contains sid then
        let (store2, _caught, raised) := run f.data store
        match raised with
        | none => (store2, [AckOp.ack f.message_id sid])
        | some _ => (store2, [AckOp.nack f.message_id sid])
      else (store, [])

/-! ## Artemis connector (src/artemis/connector.py, class ArtemisConnector)

The stomp transport is an oracle: each transport call is told whether it
succeeds or raises.  Handlers are identified by opaque tokens.  The
`STOMP_AVAILABLE = False` branch of `connect` (stomp.py not installed) is
outside the model: a deployment that processes messages has the library. -/

/-- Opaque identity of a registered handler function. -/
abbrev Handler := Nat

/-- Registry entry created by `subscribe_to_queue` (lines 165-170). -/
structure Subscription where
  queue : String
  destination : String
  handler : Handler
  created : Nat
deriving DecidableEq, Repr

/-- Mutable fields of `ArtemisConnector` (lines 45-68) relevant to the
connection life cycle.  `connection` is whether `self.connection` holds a
stomp connection object (is not `None`). -/
structure ConnectorState where
  queue : String
  max_reconnect_attempts : Nat
  reconnect_delay : Nat
  connection : Bool
  connected : Bool
  subscriptions : List (String × Subscription)
  message_handlers : List (String × Handler)
  running : Bool
  reconnect_attempts : Nat
deriving DecidableEq, Repr

/-- Broker-level calls issued on the stomp connection. -/
inductive BrokerOp : Type
  | subscribe (destination id : String)
  | unsubscribe (id : String)
  | stompDisconnect
deriving DecidableEq, Repr

/-- Model of `ArtemisConnector.connect` (lines 72-111): the stomp connection
object is created first (so `self.connection` is set on both branches),
then the handshake either succeeds — Connected, attempt counter reset — or
raises, which is caught and reported as `false` with `connected = False`. -/
def connector_connect (s : ConnectorState) (ok : Bool) : ConnectorState × Bool :=
  if ok then
    ({ s with connection := true, connected := true, reconnect_attempts := 0 }, true)
  else
    ({ s with connection := true, connected := false }, false)

/-- Model of `ArtemisConnector.subscribe_to_queue` (lines 131-177).  The
method takes no queue argument: the destination is always the configured
`self.queue`.  Not connected raises RuntimeError; otherwise the handler is
registered first, the broker-level subscribe is issued (`brokerExn` tells
whether it raises — in which case the handler registration survives but no
registry entry is added and a RuntimeError is raised), and on success the
registry entry is recorded and the identifier returned. -/
def subscribe_to_queue (s : ConnectorState) (message_handler : Handler)
    (subscription_id : Option String) (now : Nat) (brokerExn : Bool) :
    ConnectorState × List BrokerOp × Except PyExn String :=
  if s.connected = false then
    (s, [], .error (.runtimeError "No conectado a Artemis. Conéctese primero."))
  else
    let sid := subscription_id.getD ("sub_" ++ s.queue ++ "_" ++ toString now)
    let s1 := { s with message_handlers := dictSet s.message_handlers sid message_handler }
    if brokerExn then
      (s1, [], .error (.runtimeError "Error suscribiéndose a la cola"))
    else
      let sub : Subscription :=
        { queue := s.queue, destination := s.queue,
          handler := message_handler, created := now }
      ({ s1 with subscriptions := dictSet s1.subscriptions sid sub },
        [BrokerOp.subscribe s.queue sid], .ok sid)

/-- Model of `ArtemisConnector.unsubscribe` (lines 179-199).  An identifier
absent from the registry silently does nothing; a present identifier first
issues the broker-level unsubscribe — if that raises, the registry is left
untouched and a RuntimeError propagates — then removes the registry entry
and its handler. -/
def connector_unsubscribe (s : ConnectorState) (subscription_id : String)
    (brokerExn : Bool) : ConnectorState × List BrokerOp × Option PyExn :=
  if dictHas s.subscriptions subscription_id then
    if brokerExn then
      (s, [], some (.runtimeError "Error cancelando suscripción"))
    else
      ({ s with subscriptions := dictDel s.subscriptions subscription_id
                message_handlers := dictDel s.message_handlers subscription_id },
        [BrokerOp.unsubscribe subscription_id], none)
  else (s, [], none)

/-- Iteration of `disconnect` over a snapshot of the subscription ids
(line 121-122): unsubscribes each in turn, stopping at the first one whose
broker call raises. -/
def unsubscribeAll (exns : String → Bool) :
    ConnectorState → List String → ConnectorState × List BrokerOp × Option PyExn
  | s, [] => (s, [], none)
  | s, k :: ks =>
      match connector_unsubscribe s k (exns k) with
      | (s1, ops1, some e) => (s1, ops1, some e)
      | (s1, ops1, none) =>
          let (s2, ops2, e2) := unsubscribeAll exns s1 ks
          (s2, ops1 ++ ops2, e2)

/-- Model of `ArtemisConnector.disconnect` (lines 113-129).  Does nothing
unless a connection object exists and the state is connected.  Inside the
`try`, `running` is cleared, every subscription is unsubscribed, the
transport is closed and only then `connected` is set to `False`; any
exception along the way — `exns` for the per-subscription broker calls,
`closeExn` for the transport close — jumps to the `except`, which logs and
swallows it, leaving `connected` untouched.  The third component is the
exception escaping `disconnect`, `none` on every path. -/
def connector_disconnect (s : ConnectorState) (exns : String → Bool)
    (closeExn : Bool) : ConnectorState × List BrokerOp × Option PyExn :=
  if s.connection && s.connected then
    let s0 := { s with running := false }
    match unsubscribeAll exns s0 (dictKeys s0.subscriptions) with
    | (s1, ops, some _) => (s1, ops, none)
    | (s1, ops, none) =>
        if closeExn then (s1, ops, none)
        else ({ s1 with connected := false }, ops ++ [BrokerOp.stompDisconnect], none)
  else (s, [], none)

/-- Model of `ArtemisConnector._attempt_reconnect` (lines 223-241).  When
the attempt counter has reached the maximum, returns without calling
`connect`.  Otherwise the counter is incremented, `connect` is called (its
outcome is the oracle `connectOk`), and after a successful connect the
code loops over the registry calling
`self.subscribe_to_queue(sub_info[queue], sub_info[handler], sub_id)` —
three positional arguments to a method whose signature is
`subscribe_to_queue(self, message_handler, subscription_id=None)`, so on a
non-empty registry the very first call raises `TypeError` before any
broker-level subscribe can be issued.  Returns the state, whether
`connect` was called, and the exception propagating out. -/
def attempt_reconnect (s : ConnectorState) (connectOk : Bool) :
    ConnectorState × Bool × Option PyExn :=
  if s.reconnect_attempts ≥ s.max_reconnect_attempts then (s, false, none)
  else
    let s1 := { s with reconnect_attempts := s.reconnect_attempts + 1 }
    let (s2, ok) := connector_connect s1 connectOk
    if ok then
      if s2.subscriptions.isEmpty then (s2, true, none)
      else (s2, true, some (.typeError
        "subscribe_to_queue acepta 2 argumentos posicionales pero recibió 3"))
    else (s2, true, none)

/-- Model of the `while` loop of `ArtemisConnector.start_listening`
(lines 202-220), fuel-bounded.  `drops` says, per iteration, whether the
listener thread reported a lost connection during this iteration's sleep;
`connects` is the stream of outcomes for successive `connect` calls.
Returns the final state, the number of `connect` calls made, the
exception caught by the surrounding `except` if one ended the loop, and
whether the loop exited (as opposed to running out of fuel); the `finally`
clears `running` whenever the loop exits. -/
def start_listening_loop : Nat → ConnectorState → List Bool → List Bool →
    ConnectorState × Nat × Option PyExn × Bool
  | 0, s, _, _ => (s, 0, none, false)
  | fuel + 1, s, drops, connects =>
      if !(s.running && s.connected) then
        ({ s with running := false }, 0, none, true)
      else
        let s1 := if drops.headD false then { s with connected := false } else s
        if !s1.connected && s1.running then
          match attempt_reconnect s1 (connects.headD false) with
          | (s2, called, some e) =>
              ({ s2 with running := false }, if called then 1 else 0, some e, true)
          | (s2, called, none) =>
              let used := if called then 1 else 0
              let rest := start_listening_loop fuel s2 drops.tail
                (if called then connects.tail else connects)
              (rest.1, used + rest.2.1, rest.2.2.1, rest.2.2.2)
        else
          start_listening_loop fuel s1 drops.tail connects

/-- Model of `ArtemisConnector.start_listening`: sets `running` and enters
the loop. -/
def start_listening (s : ConnectorState) (fuel : Nat) (drops connects : List Bool) :
    ConnectorState × Nat × Option PyExn × Bool :=
  start_listening_loop fuel { s with running := true } drops connects

/-! ## Dictionary lemmas -/

/-- Number of records stored under a key. -/
def countKey {α : Type} (d : List (String × α)) (k : String) : Nat :=
  (d.filter (fun p => p.1 = k)).length

theorem dictGet_dictSet_self {α : Type} (d : List (String × α)) (k : String) (v : α) :
    dictGet (dictSet d k v) k = some v := by
  induction d with
  | nil => simp [dictSet, dictGet]
  | cons p rest ih =>
      by_cases h : p.1 = k
      · simp [dictSet, dictGet, h]
      · simp [dictSet, dictGet, h, ih]

theorem dictGet_dictSet_ne {α : Type} (d : List (String × α)) (k k2 : String) (v : α)
    (h : k ≠ k2) : dictGet (dictSet d k v) k2 = dictGet d k2 := by
  induction d with
  | nil => simp [dictSet, dictGet, h]
  | cons p rest ih =>
      by_cases hp : p.1 = k
      · simp [dictSet, dictGet, hp, h]
      · by_cases hp2 : p.1 = k2
        · simp [dictSet, dictGet, hp, hp2, Ne.symm h]
        · simp [dictSet, dictGet, hp, hp2, ih]

theorem dictDel_cons {α : Type} (p : String × α) (rest : List (String × α)) (k : String) :
    dictDel (p :: rest) k = if p.1 = k then dictDel rest k else p :: dictDel rest k := by
  by_cases hp : p.1 = k <;> simp [dictDel, List.filter_cons, hp]

theorem dictGet_dictDel_ne {α : Type} (d : List (String × α)) (k k2 : String)
    (h : k ≠ k2) : dictGet (dictDel d k) k2 = dictGet d k2 := by
  induction d with
  | nil => rfl
  | cons p rest ih =>
      rw [dictDel_cons]
      by_cases hp : p.1 = k
      · have hne : ¬ p.1 = k2 := by rw [hp]; exact h
        rw [if_pos hp, ih]
        simp [dictGet, hne]
      · rw [if_neg hp]
        by_cases hp2 : p.1 = k2
        · simp [dictGet, hp2]
        · simp [dictGet, hp2, ih]

theorem dictHas_dictDel_self {α : Type} (d : List (String × α)) (k : String) :
    dictHas (dictDel d k) k = false := by
  induction d with
  | nil => rfl
  | cons p rest ih =>
      by_cases hp : p.1 = k
      · simpa [dictDel, dictHas, hp] using ih
      · simpa [dictDel, dictHas, hp] using ih

theorem dictSet_not_has {α : Type} (d : List (String × α)) (k : String) (v : α)
    (h : dictHas d k = false) : dictSet d k v = d ++ [(k, v)] := by
  induction d with
  | nil => rfl
  | cons p rest ih =>
      simp only [dictHas, List.any_cons, Bool.or_eq_false_iff] at h
      have hp : ¬ p.1 = k := by
        intro he
        simp [he] at h
      simp only [dictSet, hp, if_false, List.cons_append]
      have : dictHas rest k = false := by
        simpa [dictHas] using h.2
      rw [ih this]

theorem countKey_dictDel_self {α : Type} (d : List (String × α)) (k : String) :
    countKey (dictDel d k) k = 0 := by
  induction d with
  | nil => rfl
  | cons p rest ih =>
      by_cases hp : p.1 = k
      · simpa [dictDel, countKey, hp, List.filter] using ih
      · simpa [dictDel, countKey, hp, List.filter] using ih

theorem countKey_upsert {α : Type} (d : List (String × α)) (k : String) (v : α) :
    countKey (dictSet (dictDel d k) k v) k = 1 := by
  rw [dictSet_not_has _ _ _ (dictHas_dictDel_self d k)]
  simp [countKey, List.filter_append]
  have := countKey_dictDel_self d k
  simpa [countKey] using this

theorem dictGet_upsert {α : Type} (d : List (String × α)) (k : String) (v : α) :
    dictGet (dictSet (dictDel d k) k v) k = some v :=
  dictGet_dictSet_self _ _ _

/-! ## Behaviour of `save_document` and the indexing loop -/

theorem save_document_ok (store : EsStore) (doc : EsDoc) (id : String) (now : Nat) :
    save_document store true doc (some id) now ⟨true, false, false⟩ =
      (dictSet (dictDel store id) id (addProcessedDate doc now), true) := by
  unfold save_document esIndex esDelete
  simp [dictHas_dictDel_self]

theorem save_document_other_keys (store : EsStore) (c : Bool) (doc : EsDoc)
    (id k : String) (now : Nat) (o : EsCallOracle) (hk : k ≠ id) :
    dictGet (save_document store c doc (some id) now o).1 k = dictGet store k := by
  unfold save_document
  by_cases hc : c = false
  · simp [hc]
  · simp only [hc, if_false]
    by_cases hd : o.deleteExn = true
    · simp [hd]
    · simp only [hd, if_false]
      by_cases hi : o.indexExn = true
      · simp [hi, esDelete, dictGet_dictDel_ne _ _ _ (Ne.symm hk)]
      · simp [hi, esIndex, esDelete,
          dictGet_dictSet_ne _ _ _ _ (Ne.symm hk), dictGet_dictDel_ne _ _ _ (Ne.symm hk)]

theorem save_document_countKey (store : EsStore) (c : Bool) (doc : EsDoc)
    (id : String) (now : Nat) (o : EsCallOracle) (hst : countKey store id ≤ 1) :
    countKey (save_document store c doc (some id) now o).1 id ≤ 1 := by
  unfold save_document
  by_cases hc : c = false
  · simpa [hc] using hst
  · simp only [hc, if_false]
    by_cases hd : o.deleteExn = true
    · simpa [hd] using hst
    · simp only [hd, if_false]
      by_cases hi : o.indexExn = true
      · simp [hi, esDelete, countKey_dictDel_self]
      · simp [hi, esIndex, esDelete, countKey_upsert]

theorem send_to_es_countKey (store : EsStore) (uuid : String) (f : EsDoc)
    (now : Nat) (o : EsCallOracle) (h : countKey store uuid ≤ 1) :
    countKey (send_to_elasticsearch store (some uuid) f now o).1 uuid ≤ 1 :=
  save_document_countKey store o.connectOk f uuid now o h

theorem send_to_es_other_keys (store : EsStore) (uuid : String) (f : EsDoc)
    (now : Nat) (o : EsCallOracle) (k : String) (hk : k ≠ uuid) :
    dictGet (send_to_elasticsearch store (some uuid) f now o).1 k = dictGet store k :=
  save_document_other_keys store o.connectOk f uuid k now o hk

/-- C7: Running the Index write (save_document) twice with an identical key
(the same doc_id) overwrites rather than duplicates: after the second
successful write, exactly one stored record exists under that id,
containing the second write's document (with its processed_date stamped). -/
theorem save_document_idempotent_overwrite (store : EsStore) (d1 d2 : EsDoc)
    (id : String) (n1 n2 : Nat) :
    (save_document (save_document store true d1 (some id) n1 ⟨true, false, false⟩).1
        true d2 (some id) n2 ⟨true, false, false⟩).2 = true ∧
    countKey (save_document (save_document store true d1 (some id) n1 ⟨true, false, false⟩).1
        true d2 (some id) n2 ⟨true, false, false⟩).1 id = 1 ∧
    dictGet (save_document (save_document store true d1 (some id) n1 ⟨true, false, false⟩).1
        true d2 (some id) n2 ⟨true, false, false⟩).1 id = some (addProcessedDate d2 n2) := by
  refine ⟨by simp [save_document_ok], ?_, ?_⟩
  · simp only [save_document_ok]
    exact countKey_upsert _ _ _
  · simp only [save_document_ok]
    exact dictGet_upsert _ _ _

/-- Concrete formatted fragment used in counterexamples and witnesses. -/
def sampleDoc (i : Nat) : EsDoc :=
  { doc_id := some "doc1", chunk_index := i, page := 0, sectionField := "",
    tokens := 0, areas := [], titulo := some "Report", autor := none,
    fecha_creacion := none, fecha_modificacion := none, correo := none,
    privacidad := none, keywords := [], ruta := none, content_raw := "frag",
    title := some "Report", source_url := some "doc1", content_vector := some 0,
    processed_date := none }

/-- C2 counterexample: a run whose Chunk stage produced two fragments and in
which every Elasticsearch call succeeds leaves exactly ONE stored record —
keyed by the bare document reference, holding the second fragment — not
two records keyed by document reference plus chunk index, because
`send_to_elasticsearch` passes only `self.document_uuid` as the id and
`save_document` deletes the previous record before re-indexing. -/
theorem index_two_fragments_one_record :
    (indexFragments [] (some "doc1") [sampleDoc 0, sampleDoc 1] 5
        [⟨true, false, false⟩, ⟨true, false, false⟩]).1 =
      [("doc1", addProcessedDate (sampleDoc 1) 5)] ∧
    ((indexFragments [] (some "doc1") [sampleDoc 0, sampleDoc 1] 5
        [⟨true, false, false⟩, ⟨true, false, false⟩]).1).length ≠ 2 := by
  decide

/-- C2 (amended): the Index loop attempts exactly one write per fragment,
in order, even after earlier failures — but every write is keyed by the
document reference alone, with no chunk-index component, so each
successful write replaces the previous record and at most one record for
the document remains after the run; write results are discarded, so
failures do not mark the run failed. -/
theorem indexFragments_amended (uuid : String) (frags : List EsDoc) :
    ∀ (store : EsStore) (os : List EsCallOracle) (now : Nat),
      countKey store uuid ≤ 1 →
      (indexFragments store (some uuid) frags now os).2.length = frags.length ∧
      (∀ k, k ≠ uuid →
        dictGet (indexFragments store (some uuid) frags now os).1 k = dictGet store k) ∧
      countKey (indexFragments store (some uuid) frags now os).1 uuid ≤ 1 := by
  induction frags with
  | nil => exact fun store os now h => ⟨rfl, fun k _ => rfl, h⟩
  | cons f fs ih =>
      intro store os now h
      have hstep1 : countKey (send_to_elasticsearch store (some uuid) f now
          (os.headD ⟨true, false, false⟩)).1 uuid ≤ 1 :=
        send_to_es_countKey store uuid f now _ h
      have ihr := ih (send_to_elasticsearch store (some uuid) f now
          (os.headD ⟨true, false, false⟩)).1 os.tail now hstep1
      refine ⟨?_, ?_, ?_⟩
      · show (indexFragments (send_to_elasticsearch store (some uuid) f now
            (os.headD ⟨true, false, false⟩)).1 (some uuid) fs now os.tail).2.length + 1
            = fs.length + 1
        rw [ihr.1]
      · intro k hk
        exact (ihr.2.1 k hk).trans
          (send_to_es_other_keys store uuid f now (os.headD ⟨true, false, false⟩) k hk)
      · exact ihr.2.2

/-- Witness for the amended C2 theorem at a concrete run of two fragments. -/
theorem indexFragments_amended_witness :
    countKey ([] : EsStore) "doc1" ≤ 1 ∧
    ((indexFragments [] (some "doc1") [sampleDoc 0, sampleDoc 1] 5
        [⟨true, false, false⟩, ⟨true, false, false⟩]).2.length = 2 ∧
      (∀ k, k ≠ "doc1" →
        dictGet (indexFragments [] (some "doc1") [sampleDoc 0, sampleDoc 1] 5
          [⟨true, false, false⟩, ⟨true, false, false⟩]).1 k = dictGet ([] : EsStore) k) ∧
      countKey (indexFragments [] (some "doc1") [sampleDoc 0, sampleDoc 1] 5
        [⟨true, false, false⟩, ⟨true, false, false⟩]).1 "doc1" ≤ 1) :=
  ⟨by decide,
    indexFragments_amended "doc1" [sampleDoc 0, sampleDoc 1] []
      [⟨true, false, false⟩, ⟨true, false, false⟩] 5 (by decide)⟩

/-! ## Chunk index density (C8) -/

theorem processor_split_text_ok (p : ProcState) (text : String) (cs : List String)
    (now : Nat) (htext : pyStrip text ≠ "") :
    processor_split_text p text (Except.ok cs) now =
      Except.ok ((cs.enum.map (fun q => create_fragment q.2 q.1 cs.length text now)).map
        (formato_fragmento p)) := by
  have htne : text ≠ "" := fun he => htext (by rw [he]; rfl)
  unfold processor_split_text TextSplitter_split_text
  simp [htne, htext]

/-- C8: for every non-whitespace input text, the fragment list produced by
the Chunk stage and carried into the formatted fragments has chunk_index
values that are dense, zero-based and increasing in document order: the
i-th of the N fragments carries chunk_index i (and the splitter fragment
it came from carries fragment_index i). -/
theorem chunk_indices_dense (p : ProcState) (text : String) (cs : List String)
    (now : Nat) (htext : pyStrip text ≠ "") :
    ∃ frags, processor_split_text p text (Except.ok cs) now = Except.ok frags ∧
      frags.length = cs.length ∧
      ∀ i (h : i < frags.length), (frags.get ⟨i, h⟩).chunk_index = i := by
  refine ⟨(cs.enum.map (fun q => create_fragment q.2 q.1 cs.length text now)).map
      (formato_fragmento p), processor_split_text_ok p text cs now htext, ?_, ?_⟩
  · simp [List.enum_length]
  · intro i h
    simp only [List.get_eq_getElem, List.getElem_map]
    have hi : i < cs.enum.length := by
      simp only [List.length_map, List.enum_length] at h
      simpa [List.enum_length] using h
    rw [List.getElem_enum]
    simp [formato_fragmento, create_fragment]

/-- Concrete processor context for witnesses. -/
def sampleProc : ProcState :=
  { document_uuid := some "doc1.pdf", areas := [], nombre := some "Report",
    privacidad := none, creacion := none, actualizacion := none, correo := none,
    autor := none, ruta := none, keywords := [], texto_paginas := 1 }

/-- Witness for C8 at a concrete text split into two chunks. -/
theorem chunk_indices_dense_witness :
    pyStrip "ab cd" ≠ "" ∧
    (∃ frags, processor_split_text sampleProc "ab cd" (Except.ok ["ab", "cd"]) 0 =
        Except.ok frags ∧
      frags.length = 2 ∧
      ∀ i (h : i < frags.length), (frags.get ⟨i, h⟩).chunk_index = i) :=
  ⟨by decide, chunk_indices_dense sampleProc "ab cd" ["ab", "cd"] 0 (by decide)⟩

/-! ## Dispatch outcomes (C1, C9) -/

/-- Ack predicate on acknowledgment operations. -/
def isAck : AckOp → Bool
  | .ack _ _ => true
  | .nack _ _ => false

/-- Number of acks among the issued acknowledgment operations. -/
def countAcks (l : List AckOp) : Nat :=
  (l.filter isAck).length

/-- Number of nacks among the issued acknowledgment operations. -/
def countNacks (l : List AckOp) : Nat :=
  (l.filter (fun o => !isAck o)).length

theorem mainHandler_no_escape (st : StageOracle) (d : MsgData) (store : EsStore) :
    (mainHandler st d store).2.2 = none := rfl

theorem on_message_with_mainHandler_acks (handlers : List String) (st : StageOracle)
    (store : EsStore) (f : Frame) (sid : String)
    (hsub : f.subscription = some sid) (hreg : handlers.contains sid = true) :
    (on_message handlers (mainHandler st) store f).2 = [AckOp.ack f.message_id sid] := by
  unfold on_message
  rw [hsub]
  simp only [hreg, if_true]
  rw [mainHandler_no_escape]

/-- Concrete data entry of a well-formed message. -/
def sampleEntry : DataEntry :=
  { archivo := some "doc1.pdf", areas := [], nombre := some "Report",
    privacidad := none, creacion := none, actualizacion := none, correo := none,
    autor := none, ruta := none }

/-- Concrete frame carrying that entry. -/
def sampleFrame : Frame :=
  { subscription := some "s1", message_id := some "m1", destination := some "test",
    data := MsgData.dict (some [some sampleEntry]) }

/-- Stage oracle whose Fetch stage (SFTP download) fails. -/
def fetchFailOracle : StageOracle :=
  { downloadOk := false, extractResult := Except.ok none, chunks := Except.ok [],
    vectorize := fun _ => Except.error (.exception "embedder"), esCalls := [], now := 0 }

/-- Stage oracle whose Extract stage raises. -/
def extractFailOracle : StageOracle :=
  { downloadOk := true,
    extractResult := Except.error (.runtimeError "formato no soportado"),
    chunks := Except.ok [], vectorize := fun _ => Except.ok 0, esCalls := [], now := 0 }

/-- C1 counterexample: for a delivered message whose subscription has a
registered handler and whose Fetch stage fails, the handler swallows the
error (its whole body sits in `except Exception`), so the dispatcher sees
a normal return and sends an ack — zero nacks are issued, falsifying
"a nack is sent exactly once and no ack is ever issued". -/
theorem fetch_error_acked_not_nacked :
    countNacks (on_message ["s1"] (mainHandler fetchFailOracle) [] sampleFrame).2 = 0 ∧
    countAcks (on_message ["s1"] (mainHandler fetchFailOracle) [] sampleFrame).2 = 1 ∧
    (handlerBody fetchFailOracle [] sampleFrame.data).2 =
      some (PyExn.exception "No se pudo descargar el archivo desde SFTP") := by
  decide

/-- C1 (amended): pipeline stage errors are caught inside the handler
itself, which then returns normally; hence for every delivered message
whose subscription identifier has a registered handler — whatever the
stage oracle does — exactly one ack and no nack is issued.  The nack
branch of `on_message` is unreachable with this handler. -/
theorem stage_error_caught_ack_not_nack (handlers : List String) (st : StageOracle)
    (store : EsStore) (f : Frame) (sid : String)
    (hsub : f.subscription = some sid) (hreg : handlers.contains sid = true) :
    countAcks (on_message handlers (mainHandler st) store f).2 = 1 ∧
    countNacks (on_message handlers (mainHandler st) store f).2 = 0 := by
  rw [on_message_with_mainHandler_acks handlers st store f sid hsub hreg]
  exact ⟨rfl, rfl⟩

/-- Witness for the amended C1 at a concrete message whose Extract stage
raises. -/
theorem stage_error_caught_ack_not_nack_witness :
    sampleFrame.subscription = some "s1" ∧ ["s1"].contains "s1" = true ∧
    (countAcks (on_message ["s1"] (mainHandler extractFailOracle) [] sampleFrame).2 = 1 ∧
     countNacks (on_message ["s1"] (mainHandler extractFailOracle) [] sampleFrame).2 = 0) :=
  ⟨rfl, by decide,
    stage_error_caught_ack_not_nack ["s1"] extractFailOracle [] sampleFrame "s1" rfl
      (by decide)⟩

/-! ## The missing send_to_elasticsearch_keywords method (C9) -/

theorem vectorize_fragments_total (vec : String → Except PyExn Nat)
    (hvec : ∀ t, ∃ v, vec t = Except.ok v) (l : List EsDoc) :
    ∃ l2, vectorize_fragments vec l = Except.ok l2 ∧ l2.length = l.length := by
  induction l with
  | nil => exact ⟨[], rfl, rfl⟩
  | cons f fs ih =>
      rcases hvec f.content_raw with ⟨v, hv⟩
      rcases ih with ⟨l2, h2, hlen⟩
      refine ⟨{ f with content_vector := some v } :: l2, ?_, ?_⟩
      · unfold vectorize_fragments
        rw [hv, h2]
      · simp [hlen]

/-- C9: for every message whose download, extraction, splitting and
vectorization succeed, the handler body reaches
`processor.send_to_elasticsearch_keywords()` — a method `DocumentProcessor`
does not define — and raises AttributeError; the handler's own
`except Exception` catches it, so the dispatcher still acks the message. -/
theorem keywords_call_attribute_error (st : StageOracle) (store : EsStore)
    (handlers : List String) (sid : String) (mid dest : Option String)
    (entry : DataEntry) (rest : List (Option DataEntry)) (u : String)
    (texto : TextoDoc) (cs : List String)
    (hreg : handlers.contains sid = true)
    (harch : entry.archivo = some u) (hu : u ≠ "")
    (hdl : st.downloadOk = true)
    (hex : st.extractResult = Except.ok (some texto))
    (htxt : pyStrip texto.contenido_texto ≠ "")
    (hch : st.chunks = Except.ok cs) (hcs : cs ≠ [])
    (hvec : ∀ t, ∃ v, st.vectorize t = Except.ok v) :
    (handlerBody st store (MsgData.dict (some (some entry :: rest)))).2 =
      some (PyExn.attributeError
        "DocumentProcessor no tiene el atributo send_to_elasticsearch_keywords") ∧
    (on_message handlers (mainHandler st) store
        ⟨some sid, mid, dest, MsgData.dict (some (some entry :: rest))⟩).2 =
      [AckOp.ack mid sid] := by
  refine ⟨?_, on_message_with_mainHandler_acks handlers st store _ sid rfl hreg⟩
  have hfalsy : strFalsy entry.archivo = false := by
    rw [harch]
    simp [strFalsy, hu]
  have hsplit := processor_split_text_ok
    { document_uuid := entry.archivo, areas := entry.areas, nombre := entry.nombre,
      privacidad := entry.privacidad, creacion := entry.creacion,
      actualizacion := entry.actualizacion, correo := entry.correo,
      autor := entry.autor, ruta := entry.ruta, keywords := [],
      texto_paginas := texto.metadatos_paginas }
    texto.contenido_texto cs st.now htxt
  rcases vectorize_fragments_total st.vectorize hvec
      ((cs.enum.map (fun q =>
          create_fragment q.2 q.1 cs.length texto.contenido_texto st.now)).map
        (formato_fragmento
          { document_uuid := entry.archivo, areas := entry.areas, nombre := entry.nombre,
            privacidad := entry.privacidad, creacion := entry.creacion,
            actualizacion := entry.actualizacion, correo := entry.correo,
            autor := entry.autor, ruta := entry.ruta, keywords := [],
            texto_paginas := texto.metadatos_paginas })) with ⟨l2, hv2, hlen2⟩
  have hne : ((cs.enum.map (fun q =>
      create_fragment q.2 q.1 cs.length texto.contenido_texto st.now)).map
        (formato_fragmento
          { document_uuid := entry.archivo, areas := entry.areas, nombre := entry.nombre,
            privacidad := entry.privacidad, creacion := entry.creacion,
            actualizacion := entry.actualizacion, correo := entry.correo,
            autor := entry.autor, ruta := entry.ruta, keywords := [],
            texto_paginas := texto.metadatos_paginas })).isEmpty = false := by
    simp [List.isEmpty_iff, hcs]
  have hne2 : l2.isEmpty = false := by
    cases l2 with
    | nil =>
        exfalso
        apply hcs
        have h0 := hlen2.symm
        simp only [List.length_map, List.enum_length, List.length_nil] at h0
        exact List.length_eq_zero.mp h0
    | cons a as => rfl
  simp only [handlerBody, Option.getD, List.headD, hfalsy, hdl, hex, hch, hsplit, hv2,
    hne, hne2, Bool.false_eq_true, Bool.true_eq_false, if_false, if_true, reduceCtorEq]

/-- Stage oracle for a fully successful pipeline run. -/
def okOracle : StageOracle :=
  { downloadOk := true, extractResult := Except.ok (some ⟨"hola mundo", 3⟩),
    chunks := Except.ok ["hola", "mundo"], vectorize := fun _ => Except.ok 1,
    esCalls := [⟨true, false, false⟩, ⟨true, false, false⟩], now := 9 }

/-- Witness for C9 at a concrete fully successful run. -/
theorem keywords_call_attribute_error_witness :
    (["s1"].contains "s1" = true) ∧ (sampleEntry.archivo = some "doc1.pdf") ∧
    ("doc1.pdf" ≠ "") ∧ (okOracle.downloadOk = true) ∧
    (okOracle.extractResult = Except.ok (some ⟨"hola mundo", 3⟩)) ∧
    (pyStrip (TextoDoc.mk "hola mundo" 3).contenido_texto ≠ "") ∧
    (okOracle.chunks = Except.ok ["hola", "mundo"]) ∧
    ((["hola", "mundo"] : List String) ≠ []) ∧
    ((handlerBody okOracle [] (MsgData.dict (some [some sampleEntry]))).2 =
        some (PyExn.attributeError
          "DocumentProcessor no tiene el atributo send_to_elasticsearch_keywords") ∧
      (on_message ["s1"] (mainHandler okOracle) []
          ⟨some "s1", some "m1", none, MsgData.dict (some [some sampleEntry])⟩).2 =
        [AckOp.ack (some "m1") "s1"]) :=
  ⟨by decide, rfl, by decide, rfl, rfl, by decide, rfl, by decide,
    keywords_call_attribute_error okOracle [] ["s1"] "s1" (some "m1") none sampleEntry []
      "doc1.pdf" ⟨"hola mundo", 3⟩ ["hola", "mundo"] (by decide) rfl (by decide) rfl rfl
      (by decide) rfl (by decide) (fun _ => ⟨1, rfl⟩)⟩

/-! ## Connector life-cycle theorems (C3, C4, C5, C6, C10) -/

/-- Connected connector with an empty registry, used in several concrete
scenarios. -/
def connState : ConnectorState :=
  { queue := "test", max_reconnect_attempts := 10, reconnect_delay := 5,
    connection := true, connected := true, subscriptions := [],
    message_handlers := [], running := true, reconnect_attempts := 0 }

/-- Disconnected connector holding one live subscription, about to
reconnect. -/
def reconnectState : ConnectorState :=
  { queue := "test", max_reconnect_attempts := 10, reconnect_delay := 5,
    connection := true, connected := false,
    subscriptions := [("tps-gestor-documental-movimientos",
      { queue := "test", destination := "test", handler := 7, created := 0 })],
    message_handlers := [("tps-gestor-documental-movimientos", 7)],
    running := true, reconnect_attempts := 0 }

/-- C3 (code bug): with one registered subscription and a reconnect whose
`connect` succeeds, `_attempt_reconnect` raises TypeError — the
re-subscription loop calls `subscribe_to_queue(queue, handler, sub_id)`
with three positional arguments against a two-parameter signature — so no
broker-level re-subscribe is ever issued; the registry itself is left as
it was. -/
theorem reconnect_resubscription_type_error :
    (attempt_reconnect reconnectState true).2.2 =
      some (PyExn.typeError
        "subscribe_to_queue acepta 2 argumentos posicionales pero recibió 3") ∧
    (attempt_reconnect reconnectState true).1.connected = true ∧
    (attempt_reconnect reconnectState true).1.subscriptions =
      reconnectState.subscriptions ∧
    (attempt_reconnect reconnectState true).1.message_handlers =
      reconnectState.message_handlers := by
  decide

/-- Connected connector configured with max_reconnect_attempts = 2 and an
empty registry. -/
def listenState : ConnectorState :=
  { queue := "test", max_reconnect_attempts := 2, reconnect_delay := 5,
    connection := true, connected := true, subscriptions := [],
    message_handlers := [], running := false, reconnect_attempts := 0 }

/-- C4 (code bug): with max_reconnect_attempts = 2, a connection drop and
`connect` failing on every call, the listening loop makes exactly ONE
failed connect call and then exits — `while self.running and
self.connected` is false once the reconnect failed — leaving the counter
at 1 and the loop stopped, instead of retrying until 2 consecutive
failures as specified. -/
theorem listen_stops_after_one_failed_connect :
    start_listening listenState 5 [true] [false, false, false] =
      ({ listenState with connected := false, running := false, reconnect_attempts := 1 },
        1, none, true) ∧
    listenState.max_reconnect_attempts = 2 := by
  decide

/-- C5 counterexample: on a connected connector whose transport close
raises, `disconnect` swallows the exception but leaves `connected = True`,
falsifying "the connection state is Disconnected after every call". -/
theorem disconnect_close_failure_stays_connected :
    (connector_disconnect connState (fun _ => false) true).1.connected = true ∧
    (connector_disconnect connState (fun _ => false) true).2.2 = none := by
  constructor
  · rfl
  · rfl

theorem connector_unsubscribe_no_exn (s : ConnectorState) (k : String) :
    (connector_unsubscribe s k false).2.2 = none := by
  unfold connector_unsubscribe
  split
  · rfl
  · rfl

theorem unsubscribeAll_ok (exns : String → Bool) (ks : List String) :
    ∀ s : ConnectorState, (∀ k ∈ ks, exns k = false) →
      (unsubscribeAll exns s ks).2.2 = none := by
  induction ks with
  | nil => intro s _; rfl
  | cons k ks ih =>
      intro s h
      have hk : exns k = false := h k (List.mem_cons_self k ks)
      have htl : ∀ k2 ∈ ks, exns k2 = false :=
        fun k2 hm => h k2 (List.mem_cons_of_mem _ hm)
      rcases hcu : connector_unsubscribe s k false with ⟨s1, ops1, e1⟩
      have he1 : e1 = none := by
        have := connector_unsubscribe_no_exn s k
        rw [hcu] at this
        exact this
      unfold unsubscribeAll
      rw [hk, hcu, he1]
      simp only []
      rcases hr : unsubscribeAll exns s1 ks with ⟨s2, ops2, e2⟩
      have := ih s1 htl
      rw [hr] at this
      simpa using this

/-- C5 (amended): `disconnect` never raises; when the connector is
connected and neither the per-subscription unsubscribes nor the transport
close raise, the state ends Disconnected; when the close (or an
unsubscribe) raises, the exception is swallowed but `connected` keeps its
previous value. -/
theorem disconnect_amended (s : ConnectorState) (exns : String → Bool)
    (closeExn : Bool) :
    (connector_disconnect s exns closeExn).2.2 = none ∧
    (s.connection = true → s.connected = true → closeExn = false →
      (∀ k ∈ dictKeys s.subscriptions, exns k = false) →
      (connector_disconnect s exns closeExn).1.connected = false) := by
  constructor
  · unfold connector_disconnect
    split
    · rcases h : unsubscribeAll exns { s with running := false }
          (dictKeys { s with running := false }.subscriptions) with ⟨s1, ops, e⟩
      cases e with
      | none =>
          by_cases hc : closeExn = true
          · simp [h, hc]
          · simp only [Bool.not_eq_true] at hc
            simp [h, hc]
      | some ex => simp [h]
    · rfl
  · intro hcn hcd hcl hks
    unfold connector_disconnect
    split
    · rcases h : unsubscribeAll exns { s with running := false }
          (dictKeys s.subscriptions) with ⟨s1, ops, e⟩
      have he : e = none := by
        have := unsubscribeAll_ok exns (dictKeys s.subscriptions)
          { s with running := false } hks
        rw [h] at this
        exact this
      rw [he] at h
      simp only [h]
      simp [hcl]
    · rename_i hfalse
      exact absurd (by simp [hcn, hcd]) hfalse

/-- Witness for the amended C5 on a connected connector with clean
transport calls. -/
theorem disconnect_amended_witness :
    ((connector_disconnect connState (fun _ => false) false).2.2 = none ∧
      (connector_disconnect connState (fun _ => false) false).1.connected = false) :=
  ⟨(disconnect_amended connState (fun _ => false) false).1,
    (disconnect_amended connState (fun _ => false) false).2 rfl rfl rfl
      (fun k hk => rfl)⟩

/-- C6 counterexample: unsubscribing an identifier absent from the registry
is a silent no-op — no exception of any kind (the repository defines no
UnknownSubscriptionError class at all), no state change and no broker
call — falsifying "fails with UnknownSubscriptionError". -/
theorem unsubscribe_absent_silent :
    dictHas connState.subscriptions "ghost" = false ∧
    connector_unsubscribe connState "ghost" false = (connState, [], none) := by
  decide

/-- C6 (amended): `unsubscribe` with an identifier absent from the registry
silently does nothing (no error is raised); with a present identifier and
a broker-level unsubscribe that does not raise, it issues the broker-level
unsubscribe and removes both the registry entry and its handler. -/
theorem unsubscribe_amended (s : ConnectorState) (sid : String) (brokerExn : Bool) :
    (dictHas s.subscriptions sid = false →
      connector_unsubscribe s sid brokerExn = (s, [], none)) ∧
    (dictHas s.subscriptions sid = true → brokerExn = false →
      connector_unsubscribe s sid brokerExn =
        ({ s with subscriptions := dictDel s.subscriptions sid, message_handlers := dictDel s.message_handlers sid },
          [BrokerOp.unsubscribe sid], none)) := by
  constructor
  · intro habs
    unfold connector_unsubscribe
    simp [habs]
  · intro hpres hbe
    unfold connector_unsubscribe
    simp [hpres, hbe]

/-- Witness for the amended C6 on the registry holding one subscription. -/
theorem unsubscribe_amended_witness :
    dictHas reconnectState.subscriptions "tps-gestor-documental-movimientos" = true ∧
    connector_unsubscribe reconnectState "tps-gestor-documental-movimientos" false =
      ({ reconnectState with
          subscriptions := dictDel reconnectState.subscriptions "tps-gestor-documental-movimientos",
          message_handlers := dictDel reconnectState.message_handlers "tps-gestor-documental-movimientos" },
        [BrokerOp.unsubscribe "tps-gestor-documental-movimientos"], none) :=
  ⟨by decide,
    (unsubscribe_amended reconnectState "tps-gestor-documental-movimientos" false).2
      (by decide) rfl⟩

/-! ## Subscriptions always target the configured queue (C10) -/

theorem mem_dictSet {α : Type} (d : List (String × α)) (k : String) (v : α) :
    ∀ e ∈ dictSet d k v, e ∈ d ∨ e = (k, v) := by
  induction d with
  | nil =>
      intro e he
      simp [dictSet] at he
      right
      exact he
  | cons p rest ih =>
      intro e he
      by_cases hp : p.1 = k
      · simp only [dictSet, hp, if_true] at he
        rcases List.mem_cons.mp he with he | he
        · right; exact he
        · left; exact List.mem_cons_of_mem _ he
      · simp only [dictSet, hp, if_false] at he
        rcases List.mem_cons.mp he with he | he
        · left
          rw [he]
          exact List.mem_cons_self _ _
        · rcases ih e he with h1 | h1
          · left; exact List.mem_cons_of_mem _ h1
          · right; exact h1

/-- C10: every subscription created by `subscribe_to_queue` targets the
single configured queue — the method takes no queue argument (see its
signature), the broker-level subscribe destination is the connector's
configured `self.queue`, the registry entry stores that queue as both
queue and destination, and the invariant that every registry entry's
queue field equals the configured queue is preserved. -/
theorem subscribe_targets_configured_queue (s : ConnectorState) (h : Handler)
    (sid0 : Option String) (now : Nat) (hconn : s.connected = true)
    (hq : ∀ e ∈ s.subscriptions, e.2.queue = s.queue) :
    ∃ sid,
      (subscribe_to_queue s h sid0 now false).2.2 = Except.ok sid ∧
      (subscribe_to_queue s h sid0 now false).2.1 = [BrokerOp.subscribe s.queue sid] ∧
      dictGet (subscribe_to_queue s h sid0 now false).1.subscriptions sid =
        some { queue := s.queue, destination := s.queue, handler := h, created := now } ∧
      (∀ e ∈ (subscribe_to_queue s h sid0 now false).1.subscriptions,
        e.2.queue = s.queue) := by
  have hred : subscribe_to_queue s h sid0 now false =
      ({ s with
          message_handlers := dictSet s.message_handlers (sid0.getD ("sub_" ++ s.queue ++ "_" ++ toString now)) h,
          subscriptions := dictSet s.subscriptions (sid0.getD ("sub_" ++ s.queue ++ "_" ++ toString now)) { queue := s.queue, destination := s.queue, handler := h, created := now } },
        [BrokerOp.subscribe s.queue (sid0.getD ("sub_" ++ s.queue ++ "_" ++ toString now))],
        Except.ok (sid0.getD ("sub_" ++ s.queue ++ "_" ++ toString now))) := by
    unfold subscribe_to_queue
    simp [hconn]
  refine ⟨sid0.getD ("sub_" ++ s.queue ++ "_" ++ toString now), ?_, ?_, ?_, ?_⟩
  · rw [hred]
  · rw [hred]
  · rw [hred]
    exact dictGet_dictSet_self _ _ _
  · rw [hred]
    intro e he
    rcases mem_dictSet _ _ _ e he with h1 | h1
    · exact hq e h1
    · rw [h1]

/-- Witness for C10 on the connected connector with an empty registry. -/
theorem subscribe_targets_configured_queue_witness :
    connState.connected = true ∧
    (∀ e ∈ connState.subscriptions, e.2.queue = connState.queue) ∧
    (∃ sid,
      (subscribe_to_queue connState 3 (some "s1") 0 false).2.2 = Except.ok sid ∧
      (subscribe_to_queue connState 3 (some "s1") 0 false).2.1 =
        [BrokerOp.subscribe connState.queue sid] ∧
      dictGet (subscribe_to_queue connState 3 (some "s1") 0 false).1.subscriptions sid =
        some { queue := connState.queue, destination := connState.queue, handler := 3, created := 0 } ∧
      (∀ e ∈ (subscribe_to_queue connState 3 (some "s1") 0 false).1.subscriptions,
        e.2.queue = connState.queue)) :=
  ⟨rfl, (by intro e he; cases he),
    subscribe_targets_configured_queue connState 3 (some "s1") 0 rfl
      (by intro e he; cases he)⟩
